import Mathlib

/-!
# Verification of the Kira document registry (kira-v2)

Shallow embedding of `src/kira-v2/src/pages/DocumentListPage.tsx` and
`src/kira-v2/src/stores/documentSelectionStore.ts`, with theorems settling
the specification claims about filtering, selection, pagination, loading and
gazette-record normalization.

JS strings are modelled as Lean `String`; `toLowerCase`, `trim` and
`includes` are modelled by `String.toLower`, `String.trim` and list-infix
containment on the character data. A JS object used as a string-keyed map
(`selectedIds: Record<string, boolean>`) is modelled as an association list
with JS update semantics: an existing key keeps its position and gets the
new value, a fresh key is appended.
-/

namespace Kira

/-- `DocumentRow` from `DocumentListPage.tsx` (lines 17-28). -/
structure DocumentRow where
  id : String
  type : String
  title : String
  fileName : String
  date : String
  sector : String
  status : String
  aiStatus : String
  sourceUrl : Option String := none
  rawContent : Option String := none
deriving Repr, DecidableEq

/-- The free-text "filter" select of `ControlsForm` (`All | Type | Sector`). -/
inductive FilterControl where
  | all
  | type
  | sector
deriving Repr, DecidableEq

/-- The "sort" select of `ControlsForm` (`Date Desc | Date Asc | Status`). -/
inductive SortControl where
  | dateDesc
  | dateAsc
  | status
deriving Repr, DecidableEq

/-- `ControlsForm` from `DocumentListPage.tsx` (lines 30-35).  The `search`
and `status` dimensions are JS strings (the status chips compare by string
equality against `row.status`), the other two selects are closed enums. -/
structure ControlsForm where
  search : String
  filter : FilterControl
  sort : SortControl
  status : String
deriving Repr, DecidableEq

/-- The form's `defaultValues` (lines 96-101). -/
def defaultControls : ControlsForm :=
  { search := "", filter := .all, sort := .dateDesc, status := "All" }

/-- `sampleDocuments` from `DocumentListPage.tsx` (lines 49-58): the fixed
local fallback dataset of 8 rows. -/
def sampleDocuments : List DocumentRow :=
  [ { id := "D-1001", type := "Policy", title := "Cross-Border Retention Policy", fileName := "retention_policy_v2.pdf", date := "2026-02-20", sector := "Finance", status := "Reviewed", aiStatus := "Processed" },
    { id := "D-1002", type := "Directive", title := "Incident Reporting Directive", fileName := "incident_directive.docx", date := "2026-02-19", sector := "Healthcare", status := "Manual", aiStatus := "Manual" },
    { id := "D-1003", type := "Procedure", title := "Record Access Procedure", fileName := "record_access.xlsx", date := "2026-02-18", sector := "Public", status := "Unreviewed", aiStatus := "Queued" },
    { id := "D-1004", type := "Guideline", title := "Sanctions Screening Guideline", fileName := "screening_guideline.pdf", date := "2026-02-16", sector := "Energy", status := "Reviewed", aiStatus := "Processed" },
    { id := "D-1005", type := "Policy", title := "Vendor Due Diligence Policy", fileName := "vendor_due_diligence.pdf", date := "2026-02-15", sector := "Finance", status := "Manual", aiStatus := "Manual" },
    { id := "D-1006", type := "Directive", title := "Consumer Data Handling Directive", fileName := "consumer_data_directive.docx", date := "2026-02-14", sector := "Healthcare", status := "Reviewed", aiStatus := "Processed" },
    { id := "D-1007", type := "Procedure", title := "Escalation Procedure", fileName := "escalation_procedure.pdf", date := "2026-02-13", sector := "Public", status := "Unreviewed", aiStatus := "Queued" },
    { id := "D-1008", type := "Guideline", title := "Policy Harmonization Guideline", fileName := "harmonization_guideline.pdf", date := "2026-02-12", sector := "Energy", status := "Reviewed", aiStatus := "Processed" } ]

/-- JS `s.toLowerCase()`: case-fold every character. -/
def strToLower (s : String) : String :=
  ⟨s.data.map Char.toLower⟩

/-- JS `s.trim()`: strip whitespace from both ends. -/
def strTrim (s : String) : String :=
  ⟨((s.data.dropWhile Char.isWhitespace).reverse.dropWhile Char.isWhitespace).reverse⟩

/-- JS `haystack.includes(needle)` on strings: the needle's characters occur
contiguously in the haystack's characters. -/
def strIncludes (haystack needle : String) : Bool :=
  decide (needle.data <:+: haystack.data)

/-- `filteredRows` from `DocumentListPage.tsx` (lines 202-215): trim and
case-fold the search text once, then keep a row iff it passes the text test
(empty search, or search occurs in case-folded title, file name or type)
and the status test (token `All`, or exact match on `row.status`). -/
def filteredRows (documents : List DocumentRow) (controls : ControlsForm) :
    List DocumentRow :=
  let search := strToLower (strTrim controls.search)
  documents.filter fun row =>
    (search.length == 0 ||
      strIncludes (strToLower row.title) search ||
      strIncludes (strToLower row.fileName) search ||
      strIncludes (strToLower row.type) search) &&
    (controls.status == "All" || row.status == controls.status)

/-! ## The selection store (`documentSelectionStore.ts`) -/

/-- `selectedIds : Record<string, boolean>` as an association list in key
insertion order. -/
abbrev SelectedIds := List (String × Bool)

/-- Whether the JS object has the key. -/
def objHasKey (m : SelectedIds) (k : String) : Bool :=
  m.any fun p => p.1 == k

/-- JS spread-update `{...m, [k]: v}`: an existing key keeps its insertion
position and receives the new value, a fresh key is appended. -/
def objSet (m : SelectedIds) (k : String) (v : Bool) : SelectedIds :=
  if objHasKey m k then m.map fun p => if p.1 == k then (k, v) else p
  else m ++ [(k, v)]

/-- Reading `m[k]` in a boolean context: a missing key is `undefined`,
which is falsy. -/
def objGet (m : SelectedIds) (k : String) : Bool :=
  match m.find? (fun p => p.1 == k) with
  | some p => p.2
  | none => false

/-- `setSelected` from `documentSelectionStore.ts` (lines 12-18). -/
def setSelected (m : SelectedIds) (id : String) (value : Bool) : SelectedIds :=
  objSet m id value

/-- `setManySelected` from `documentSelectionStore.ts` (lines 19-26): copy
the object, then assign `value` to every id in the list in order. -/
def setManySelected (m : SelectedIds) (ids : List String) (value : Bool) :
    SelectedIds :=
  ids.foldl (fun next id => objSet next id value) m

/-- `clearSelected` from `documentSelectionStore.ts` (line 27). -/
def clearSelected (_ : SelectedIds) : SelectedIds := []

/-- `allVisibleSelected` from `DocumentListPage.tsx` (line 222): the
filtered set is non-empty and every filtered row's id reads truthy in the
selection object. -/
def allVisibleSelected (filtered : List DocumentRow) (selectedIds : SelectedIds) :
    Bool :=
  decide (filtered.length > 0) && filtered.all fun row => objGet selectedIds row.id

/-! ## Loading and normalization (`loadDocuments`, lines 107-176) -/

/-- `PolicyListItem` from `api/client.ts` (lines 41-49); only the fields
read by `mapPolicyToRow` are relevant, but all are kept. -/
structure PolicyListItem where
  id : String
  title : String
  authority : String
  version : String
  effectiveDate : String
  status : String
  assigned : Bool
deriving Repr, DecidableEq

/-- `mapPolicyToRow` from `DocumentListPage.tsx` (lines 110-119).  The
impure `new Date().toISOString().slice(0, 10)` becomes the parameter
`today`; JS `||` falls through on the empty string. -/
def mapPolicyToRow (today : String) (policy : PolicyListItem) : DocumentRow :=
  { id := policy.id
    type := "Policy"
    title := policy.title
    fileName := policy.id ++ ".txt"
    date := if policy.effectiveDate == "" then today else policy.effectiveDate
    sector := policy.authority
    status := if policy.status == "" then "Unreviewed" else policy.status
    aiStatus := if policy.status == "Processed" then "Processed" else "Queued" }

/-- A loosely typed element of the gazettes payload, as seen by
`mapGazetteToRow` (lines 121-144): either not an object (`record` is null),
or an object whose `id`, `subject`, `url`, `text` fields are each absent
(`none`, covering missing, `null` and `undefined`, which `??` replaces) or
present; a present field is recorded after JS `String(...)` coercion. -/
inductive RawGazette where
  | notRecord
  | record (id subject url text : Option String)
deriving Repr, DecidableEq

/-- The coerced `id` field (`record?.id`, pre-`??`). -/
def RawGazette.idField : RawGazette → Option String
  | .notRecord => none
  | .record i _ _ _ => i

/-- The coerced `subject` field. -/
def RawGazette.subjectField : RawGazette → Option String
  | .notRecord => none
  | .record _ s _ _ => s

/-- The coerced `url` field. -/
def RawGazette.urlField : RawGazette → Option String
  | .notRecord => none
  | .record _ _ u _ => u

/-- The coerced `text` field. -/
def RawGazette.textField : RawGazette → Option String
  | .notRecord => none
  | .record _ _ _ t => t

/-- `mapGazetteToRow` from `DocumentListPage.tsx` (lines 121-144). -/
def mapGazetteToRow (today : String) (item : RawGazette) (index : Nat) :
    Option DocumentRow :=
  let id := item.idField.getD ("gazette-" ++ toString index)
  let subject := strTrim (item.subjectField.getD "")
  let url := strTrim (item.urlField.getD "")
  let text := strTrim (item.textField.getD "")
  if subject == "" && url == "" then
    none
  else
    some
      { id
        type := "Gazette"
        title := if subject == "" then id else subject
        fileName := id
        date := today
        sector := "Government"
        status := "Reviewed"
        aiStatus := "Processed"
        sourceUrl := if url == "" then none else some url
        rawContent := if text == "" then none else some text }

/-- Outcome of one backend fetch before its `.catch(() => ...)` handler. -/
inductive FetchResult (α : Type) where
  | ok (value : α)
  | failed
deriving Repr, DecidableEq

/-- The untyped gazettes payload: the `Array.isArray` check distinguishes
an array of loose items from any other value. -/
inductive GazettesValue where
  | array (items : List RawGazette)
  | notArray
deriving Repr, DecidableEq

/-- The merged row list built inside `loadDocuments` (lines 148-160): a
failed policies fetch degrades to `[]`, a failed gazettes fetch degrades to
the empty array; policy rows are mapped, gazette rows are mapped with their
index and the `null` results dropped, and the two lists are concatenated. -/
def mergedRows (today : String) (policies : FetchResult (List PolicyListItem))
    (gazettes : FetchResult GazettesValue) : List DocumentRow :=
  let policiesResult := match policies with
    | .ok v => v
    | .failed => []
  let gazettesResult := match gazettes with
    | .ok v => v
    | .failed => .array []
  let policyRows := policiesResult.map (mapPolicyToRow today)
  let gazetteRows := match gazettesResult with
    | .array items => items.enum.filterMap fun p => mapGazetteToRow today p.2 p.1
    | .notArray => []
  policyRows ++ gazetteRows

/-- The value committed by `loadDocuments` (lines 162-164): the merged list
when non-empty, else the fixed `sampleDocuments` fallback. -/
def loadDocuments (today : String) (policies : FetchResult (List PolicyListItem))
    (gazettes : FetchResult GazettesValue) : List DocumentRow :=
  let merged := mergedRows today policies gazettes
  if merged.length > 0 then merged else sampleDocuments

/-- Committing a resolved load against the per-invocation liveness flag
(`if (active) setDocuments(...)`, lines 162-169): `active` is read at
commit time and has been set to `false` by the effect's cleanup when the
view unmounted or the load was superseded; an invalidated commit leaves the
`documents` state untouched. -/
def commitLoadResult (active : Bool) (today : String)
    (policies : FetchResult (List PolicyListItem))
    (gazettes : FetchResult GazettesValue)
    (documents : List DocumentRow) : List DocumentRow :=
  if active then loadDocuments today policies gazettes else documents

/-! ## Pagination (`getPaginationRowModel`, `Showing` label, lines 314-323,
601-615) -/

/-- The rows of page `pageIndex` under page size `pageSize` (react-table's
pagination row model: the slice from `pageIndex * pageSize` of length at
most `pageSize`). -/
def pageRows (rows : List DocumentRow) (pageIndex pageSize : Nat) :
    List DocumentRow :=
  (rows.drop (pageIndex * pageSize)).take pageSize

/-- The three numbers of the "Showing start–stop of total" label; `stop`
embeds the source's `end` (a reserved word in Lean). -/
structure ShowingLabel where
  start : Nat
  stop : Nat
  total : Nat
deriving Repr, DecidableEq

/-- The label computation from `DocumentListPage.tsx` (lines 602-615):
`currentCount` is the actual length of the current page's row model, and an
empty filtered set pins the label to `0–0 of 0`. -/
def showingLabel (filtered : List DocumentRow) (pageIndex pageSize : Nat) :
    ShowingLabel :=
  let currentCount := (pageRows filtered pageIndex pageSize).length
  let totalCount := filtered.length
  { start := if totalCount == 0 then 0 else pageIndex * pageSize + 1
    stop := if totalCount == 0 then 0 else pageIndex * pageSize + currentCount
    total := totalCount }

/-! ## The page's state transitions relevant to the selection store -/

/-- The page state acted on by the registry's handlers: the controls form
and the selection store.  (Sorting and pagination live in separate
react-table state and are not touched by these handlers.) -/
structure PageState where
  controls : ControlsForm
  selectedIds : SelectedIds
deriving Repr, DecidableEq

/-- The user actions of the registry page that mutate state: typing in the
search box (`register("search")`), clicking a status chip
(`setValue("status", chip)`), changing the filter or sort selects, toggling
a row checkbox (`setSelected`), toggling the header checkbox
(`setManySelected` over the filtered ids), and clicking Clear
(`clearSelected`). -/
inductive PageAction where
  | editSearch (value : String)
  | chooseStatusChip (chip : String)
  | chooseFilter (value : FilterControl)
  | chooseSort (value : SortControl)
  | toggleRow (id : String) (checked : Bool)
  | toggleHeader (checked : Bool)
  | clickClear
deriving Repr, DecidableEq

/-- Whether the action goes through one of the selection store's three
mutators (`setSelected`, `setManySelected`, `clearSelected`). -/
def PageAction.isStoreAction : PageAction → Bool
  | .toggleRow _ _ => true
  | .toggleHeader _ => true
  | .clickClear => true
  | _ => false

/-- One step of the page: each action updates exactly the state its source
handler writes.  The header toggle (line 253) maps over `filteredRows` —
the full filtered set, not a page slice. -/
def pageStep (st : PageState) (documents : List DocumentRow) :
    PageAction → PageState
  | .editSearch v => { st with controls := { st.controls with search := v } }
  | .chooseStatusChip c => { st with controls := { st.controls with status := c } }
  | .chooseFilter v => { st with controls := { st.controls with filter := v } }
  | .chooseSort v => { st with controls := { st.controls with sort := v } }
  | .toggleRow id checked =>
      { st with selectedIds := setSelected st.selectedIds id checked }
  | .toggleHeader checked =>
      { st with selectedIds := setManySelected st.selectedIds ((filteredRows documents st.controls).map DocumentRow.id) checked }
  | .clickClear => { st with selectedIds := clearSelected st.selectedIds }

/-! ## Helper lemmas -/

theorem string_length_eq_zero {s : String} : s.length = 0 ↔ s = "" := by
  constructor
  · intro h
    apply String.ext
    have hd : s.data = [] := List.length_eq_zero.mp h
    rw [hd]
  · intro h
    subst h
    rfl

theorem objGet_cons (p : String × Bool) (t : SelectedIds) (k : String) :
    objGet (p :: t) k = if p.1 == k then p.2 else objGet t k := by
  simp only [objGet, List.find?_cons]
  cases h : p.1 == k <;> simp [h]

theorem objHasKey_cons (p : String × Bool) (t : SelectedIds) (k : String) :
    objHasKey (p :: t) k = (p.1 == k || objHasKey t k) := by
  simp [objHasKey]

theorem objGet_eq_false_of_hasKey_eq_false {m : SelectedIds} {k : String}
    (h : objHasKey m k = false) : objGet m k = false := by
  have hnone : m.find? (fun p => p.1 == k) = none := by
    rw [List.find?_eq_none]
    intro x hx hk
    have : objHasKey m k = true := by
      simp only [objHasKey, List.any_eq_true]
      exact ⟨x, hx, hk⟩
    rw [this] at h
    exact Bool.noConfusion h
  simp [objGet, hnone]

theorem objGet_mapSet (m : SelectedIds) (k : String) (v : Bool) (k' : String) :
    objGet (m.map fun p => if p.1 == k then (k, v) else p) k'
      = if k' = k then (if objHasKey m k then v else false) else objGet m k' := by
  induction m with
  | nil => by_cases hk : k' = k <;> simp [objGet, objHasKey, hk]
  | cons p t ih =>
    rw [List.map_cons, objGet_cons, objGet_cons, objHasKey_cons]
    by_cases hp : p.1 = k <;> by_cases hk : k' = k <;>
      by_cases hpk : p.1 = k' <;>
      simp_all [objGet_cons, objHasKey_cons]

theorem objGet_append_single (m : SelectedIds) (k : String) (v : Bool)
    (k' : String) :
    objGet (m ++ [(k, v)]) k'
      = if objHasKey m k' then objGet m k'
        else if k' = k then v else false := by
  induction m with
  | nil =>
    simp only [List.nil_append, objGet_cons, objHasKey]
    by_cases hk : k' = k
    · simp [hk]
    · have : (k == k') = false := by
        simp only [beq_eq_false_iff_ne, ne_eq]
        exact fun h => hk h.symm
      simp [this, hk, objGet]
  | cons p t ih =>
    rw [List.cons_append, objGet_cons, objHasKey_cons, objGet_cons]
    by_cases hp : p.1 = k'
    · simp [hp]
    · have : (p.1 == k') = false := by simp [hp]
      simp [this, ih]

theorem objGet_objSet (m : SelectedIds) (k : String) (v : Bool) (k' : String) :
    objGet (objSet m k v) k' = if k' = k then v else objGet m k' := by
  unfold objSet
  by_cases h : objHasKey m k = true
  · rw [if_pos h, objGet_mapSet, h]
    simp
  · have hf : objHasKey m k = false := by
      cases hh : objHasKey m k
      · rfl
      · exact absurd hh h
    rw [if_neg h, objGet_append_single]
    by_cases hk : k' = k
    · subst hk
      simp [hf, objGet_eq_false_of_hasKey_eq_false hf]
    · by_cases hm : objHasKey m k' = true
      · simp [hm, hk]
      · have hmf : objHasKey m k' = false := by
          cases hh : objHasKey m k'
          · rfl
          · exact absurd hh hm
        simp [hmf, hk, objGet_eq_false_of_hasKey_eq_false hmf]

theorem objGet_setManySelected (m : SelectedIds) (ids : List String) (v : Bool)
    (id : String) :
    objGet (setManySelected m ids v) id = if id ∈ ids then v else objGet m id := by
  induction ids generalizing m with
  | nil => simp [setManySelected]
  | cons i t ih =>
    have hstep : setManySelected m (i :: t) v = setManySelected (objSet m i v) t v := rfl
    rw [hstep, ih, objGet_objSet]
    by_cases h : id ∈ t
    · simp [h]
    · by_cases h2 : id = i <;> simp [h, h2]

theorem allVisibleSelected_eq_true_iff (l : List DocumentRow) (sel : SelectedIds) :
    allVisibleSelected l sel = true ↔
      l ≠ [] ∧ ∀ row ∈ l, objGet sel row.id = true := by
  simp [allVisibleSelected, List.all_eq_true, List.length_pos]

/-- Every element of a list lies on some page of size `n > 0`, and pages
only contain elements of the list: quantifying over all pages is the same
as quantifying over the list. -/
theorem forall_mem_pages_iff {α : Type} (l : List α) (n : Nat) (hn : 0 < n)
    (P : α → Prop) :
    (∀ a ∈ l, P a) ↔ ∀ i, ∀ a ∈ (l.drop (i * n)).take n, P a := by
  constructor
  · intro h i a ha
    exact h a (List.mem_of_mem_drop (List.mem_of_mem_take ha))
  · intro h a ha
    obtain ⟨j, hj, rfl⟩ := List.mem_iff_getElem.mp ha
    have hmod : j % n < n := Nat.mod_lt _ hn
    have hdm : j / n * n + j % n = j := by
      rw [Nat.mul_comm]
      exact Nat.div_add_mod j n
    have hlen : j % n < (l.drop (j / n * n)).length := by
      rw [List.length_drop]
      omega
    have hlen2 : j % n < ((l.drop (j / n * n)).take n).length := by
      rw [List.length_take]
      exact Nat.lt_min.mpr ⟨hmod, hlen⟩
    have hget2 : ((l.drop (j / n * n)).take n)[j % n] = l[j] := by
      simp only [List.getElem_take, List.getElem_drop]
      exact getElem_congr hdm
    exact h (j / n) _ (hget2 ▸ List.getElem_mem hlen2)

/-! ## Claim theorems -/

/-- C1: for every row set, search string and status token, the filter
engine keeps exactly the rows that pass both tests — a row passes text
search iff the trimmed, case-folded search string is empty or is a
substring of the case-folded title, file name, or type; a row passes
status filter iff the token is `All` or equals the row's `status` exactly;
and filtering with empty search and token `All` returns the row set
unchanged. -/
theorem filteredRows_keeps_exactly_passing_rows (documents : List DocumentRow)
    (f : FilterControl) (srt : SortControl) (search status : String) :
    (∀ row, row ∈ filteredRows documents ⟨search, f, srt, status⟩ ↔
        row ∈ documents ∧
        (strToLower (strTrim search) = "" ∨
          (strToLower (strTrim search)).data <:+: (strToLower row.title).data ∨
          (strToLower (strTrim search)).data <:+: (strToLower row.fileName).data ∨
          (strToLower (strTrim search)).data <:+: (strToLower row.type).data) ∧
        (status = "All" ∨ row.status = status)) ∧
    (search = "" → status = "All" →
      filteredRows documents ⟨search, f, srt, status⟩ = documents) := by
  constructor
  · intro row
    simp only [filteredRows, List.mem_filter, Bool.and_eq_true, Bool.or_eq_true,
      strIncludes, decide_eq_true_eq, beq_iff_eq, string_length_eq_zero, or_assoc]
  · intro hs ht
    subst hs
    subst ht
    simp only [filteredRows]
    exact List.filter_eq_self.mpr fun a _ => rfl

/-- Witness for C1: with empty search and token `All` the 8 sample rows
come back unchanged. -/
theorem filteredRows_keeps_exactly_passing_rows_witness :
    filteredRows sampleDocuments ⟨"", .all, .dateDesc, "All"⟩ = sampleDocuments :=
  (filteredRows_keeps_exactly_passing_rows sampleDocuments .all .dateDesc "" "All").2
    rfl rfl

/-- C8: two control states that differ only in the free-text "filter"
dimension (`All | Type | Sector`) produce the same filtered row set — that
control never constrains which rows are visible. -/
theorem filter_control_noninterference (documents : List DocumentRow)
    (search status : String) (srt : SortControl) (f1 f2 : FilterControl) :
    filteredRows documents ⟨search, f1, srt, status⟩
      = filteredRows documents ⟨search, f2, srt, status⟩ := rfl

/-- C9: a load whose per-invocation liveness flag has been invalidated
never commits its result — the documents state is returned unchanged. -/
theorem stale_load_never_commits (today : String)
    (policies : FetchResult (List PolicyListItem))
    (gazettes : FetchResult GazettesValue) (documents : List DocumentRow) :
    commitLoadResult false today policies gazettes documents = documents := rfl

/-- Counterexample to C3 as stated: starting from the store
`[("a", true)]`, running `setManySelected ["a"] true` then
`setManySelected ["a"] false` does not return the store to its pre-call
state for the listed id — the read of `"a"` changes from `true` to
`false`. -/
theorem setManySelected_roundtrip_counterexample :
    ¬ (objGet (setManySelected (setManySelected [("a", true)] ["a"] true) ["a"] false) "a"
        = objGet [("a", true)] "a") := by decide

/-- C3 amended: `setManySelected(ids, true)` followed by
`setManySelected(ids, false)` sets every listed id to unselected and has no
effect on ids outside the list; consequently it restores the pre-call
state for the listed ids exactly when each listed id read unselected
before the calls. -/
theorem setManySelected_roundtrip_amended (m : SelectedIds) (ids : List String) :
    (∀ id ∈ ids,
      objGet (setManySelected (setManySelected m ids true) ids false) id = false) ∧
    (∀ id, id ∉ ids →
      objGet (setManySelected (setManySelected m ids true) ids false) id
        = objGet m id) ∧
    ((∀ id ∈ ids, objGet m id = false) →
      ∀ id, objGet (setManySelected (setManySelected m ids true) ids false) id
        = objGet m id) := by
  refine ⟨fun id hid => ?_, fun id hid => ?_, fun h id => ?_⟩
  · rw [objGet_setManySelected]
    simp [hid]
  · rw [objGet_setManySelected, objGet_setManySelected]
    simp [hid]
  · rw [objGet_setManySelected, objGet_setManySelected]
    by_cases hid : id ∈ ids
    · simp [hid, (h id hid).symm]
    · simp [hid]

/-- Witness for C3 amended: an unlisted id keeps its pre-call value across
the pair of calls. -/
theorem setManySelected_roundtrip_amended_witness :
    objGet (setManySelected (setManySelected [("a", true), ("b", false)] ["b"] true)
        ["b"] false) "a"
      = objGet [("a", true), ("b", false)] "a" :=
  (setManySelected_roundtrip_amended [("a", true), ("b", false)] ["b"]).2.1 "a"
    (by decide)

/-- C2: `allVisibleSelected` is true iff the filtered set is non-empty and
every row of the full filtered set — equivalently every row on every page,
for any positive page size — is selected; and the header checkbox toggle
calls `setManySelected` with the ids of the full filtered set, not just the
current page. -/
theorem allVisibleSelected_full_filtered_set (documents : List DocumentRow)
    (controls : ControlsForm) (sel : SelectedIds) (pageSize : Nat)
    (checked : Bool) (hps : 0 < pageSize) :
    (allVisibleSelected (filteredRows documents controls) sel = true ↔
      filteredRows documents controls ≠ [] ∧
      ∀ row ∈ filteredRows documents controls, objGet sel row.id = true) ∧
    (allVisibleSelected (filteredRows documents controls) sel = true ↔
      filteredRows documents controls ≠ [] ∧
      ∀ i, ∀ row ∈ pageRows (filteredRows documents controls) i pageSize,
        objGet sel row.id = true) ∧
    (pageStep ⟨controls, sel⟩ documents (.toggleHeader checked)).selectedIds
      = setManySelected sel ((filteredRows documents controls).map DocumentRow.id)
          checked := by
  refine ⟨allVisibleSelected_eq_true_iff _ _, ?_, rfl⟩
  rw [allVisibleSelected_eq_true_iff]
  exact and_congr_right fun _ =>
    forall_mem_pages_iff (filteredRows documents controls) pageSize hps
      (fun row => objGet sel row.id = true)

/-- Witness for C2: with page size 6 the header toggle over the sample rows
bulk-sets the ids of the full filtered set. -/
theorem allVisibleSelected_full_filtered_set_witness :
    (pageStep ⟨defaultControls, []⟩ sampleDocuments (.toggleHeader true)).selectedIds
      = setManySelected []
          ((filteredRows sampleDocuments defaultControls).map DocumentRow.id) true :=
  (allVisibleSelected_full_filtered_set sampleDocuments defaultControls [] 6 true
    (by decide)).2.2

/-- C4: changing the search text or the status filter token leaves the
selection store unchanged, and any page action that changes the selection
store is one of the explicit store operations (`setSelected`,
`setManySelected`, `clearSelected`). -/
theorem selection_survives_filter_changes (st : PageState)
    (documents : List DocumentRow) (v chip : String) (a : PageAction) :
    (pageStep st documents (.editSearch v)).selectedIds = st.selectedIds ∧
    (pageStep st documents (.chooseStatusChip chip)).selectedIds = st.selectedIds ∧
    ((pageStep st documents a).selectedIds ≠ st.selectedIds →
      a.isStoreAction = true) := by
  refine ⟨rfl, rfl, fun h => ?_⟩
  cases a <;> first | rfl | exact absurd rfl h

/-- Witness for C4: clicking Clear on a non-empty selection changes the
store, and Clear is one of the explicit store operations. -/
theorem selection_survives_filter_changes_witness :
    PageAction.clickClear.isStoreAction = true :=
  (selection_survives_filter_changes ⟨defaultControls, [("a", true)]⟩ [] "" ""
    .clickClear).2.2 (by decide)

/-- C5: the "Showing X–Y of Z" label takes Z from the filtered set's
length and Y from the current page's actual returned row count (so the
last page's end value is correct even when partial); the empty set is
labeled `0–0 of 0`; and with the 8 sample rows at page size 6, page 0 is
labeled `Showing 1–6 of 8` and page 1 is labeled `Showing 7–8 of 8`. -/
theorem showingLabel_spec (filtered : List DocumentRow) (pageIndex pageSize : Nat) :
    (showingLabel filtered pageIndex pageSize).total = filtered.length ∧
    (filtered ≠ [] →
      (showingLabel filtered pageIndex pageSize).start = pageIndex * pageSize + 1 ∧
      (showingLabel filtered pageIndex pageSize).stop
        = pageIndex * pageSize + (pageRows filtered pageIndex pageSize).length) ∧
    (filtered = [] → showingLabel filtered pageIndex pageSize = ⟨0, 0, 0⟩) ∧
    (0 < pageSize → filtered ≠ [] →
      pageIndex = (filtered.length - 1) / pageSize →
      (showingLabel filtered pageIndex pageSize).stop = filtered.length) ∧
    showingLabel (filteredRows sampleDocuments defaultControls) 0 6 = ⟨1, 6, 8⟩ ∧
    showingLabel (filteredRows sampleDocuments defaultControls) 1 6 = ⟨7, 8, 8⟩ := by
  have hne : ∀ (l : List DocumentRow), l ≠ [] → (l.length == 0) = false := by
    intro l h
    simp [List.length_eq_zero, h]
  refine ⟨rfl, fun h => ?_, fun h => ?_, fun h0 h1 hpi => ?_, by decide, by decide⟩
  · constructor <;> simp [showingLabel, hne _ h]
  · subst h
    rfl
  · subst hpi
    simp only [showingLabel, pageRows, List.length_take, List.length_drop, hne _ h1,
      Bool.false_eq_true, if_false]
    rw [Nat.mul_comm ((filtered.length - 1) / pageSize) pageSize]
    have hmd := Nat.div_add_mod (filtered.length - 1) pageSize
    have hml : (filtered.length - 1) % pageSize < pageSize := Nat.mod_lt _ h0
    have hlp : 0 < filtered.length := List.length_pos.mpr h1
    omega

/-- Witness for C5: the partial last page of the sample rows at page size
6 ends exactly at the total count. -/
theorem showingLabel_spec_witness :
    (showingLabel (filteredRows sampleDocuments defaultControls) 1 6).stop
      = (filteredRows sampleDocuments defaultControls).length :=
  (showingLabel_spec (filteredRows sampleDocuments defaultControls) 1 6).2.2.2.1
    (by decide) (by decide) (by decide)

/-- C6: when both collection fetches fail the merged result is empty and
the displayed rows are the fixed local fallback dataset — exactly 8 rows
in fixed order — and the substitution happens whenever the merged result
is empty, whether from failure or empty responses. -/
theorem loadDocuments_fallback (today : String)
    (policies : FetchResult (List PolicyListItem))
    (gazettes : FetchResult GazettesValue) :
    loadDocuments today .failed .failed = sampleDocuments ∧
    sampleDocuments.length = 8 ∧
    sampleDocuments.map DocumentRow.id
      = ["D-1001", "D-1002", "D-1003", "D-1004",
         "D-1005", "D-1006", "D-1007", "D-1008"] ∧
    (mergedRows today policies gazettes = [] →
      loadDocuments today policies gazettes = sampleDocuments) := by
  refine ⟨rfl, rfl, rfl, fun h => ?_⟩
  simp [loadDocuments, h]

/-- Witness for C6: a pair of failed fetches yields the fallback rows. -/
theorem loadDocuments_fallback_witness :
    loadDocuments "2026-02-20" .failed .failed = sampleDocuments :=
  (loadDocuments_fallback "2026-02-20" .failed .failed).2.2.2 rfl

/-- C7: gazette normalization is a total function into `Option DocumentRow`
(total by construction); a record is dropped exactly when both the trimmed
subject and the trimmed url coerce to the empty string (a missing field
coercing to the empty string), and a kept record with a missing `id` field
gets the positional fallback `"gazette-" ++ index`. -/
theorem mapGazetteToRow_drop_and_fallback (today : String) (item : RawGazette)
    (index : Nat) :
    (mapGazetteToRow today item index = none ↔
      strTrim (item.subjectField.getD "") = "" ∧
      strTrim (item.urlField.getD "") = "") ∧
    (item.idField = none →
      ∀ row, mapGazetteToRow today item index = some row →
        row.id = "gazette-" ++ toString index) := by
  constructor
  · by_cases hs : strTrim (item.subjectField.getD "") = "" <;>
    by_cases hu : strTrim (item.urlField.getD "") = "" <;>
      simp [mapGazetteToRow, hs, hu]
  · intro hid row hrow
    simp only [mapGazetteToRow, hid, Option.getD_none] at hrow
    split at hrow
    · exact absurd hrow (by simp)
    · cases hrow
      rfl

/-- Witness for C7: a record with a present subject but missing id is kept
under the positional fallback id. -/
theorem mapGazetteToRow_drop_and_fallback_witness :
    ({ id := "gazette-2", type := "Gazette", title := "Act",
       fileName := "gazette-2", date := "2026-01-01", sector := "Government",
       status := "Reviewed", aiStatus := "Processed", sourceUrl := none,
       rawContent := none } : DocumentRow).id
      = "gazette-" ++ toString 2 :=
  (mapGazetteToRow_drop_and_fallback "2026-01-01"
    (.record none (some "Act") none none) 2).2 rfl _ rfl

/-- Counterexample to C10 as stated: the raw record
`{ id: "", url: "http://x" }` is kept by normalization (its url is
non-empty) yet its row title is the empty string — the title's fallback is
the coerced id, which is itself empty here. -/
theorem gazette_title_nonempty_counterexample :
    (mapGazetteToRow "2026-01-01"
        (RawGazette.record (some "") none (some "http://x") none) 0).map
      DocumentRow.title = some "" := by decide

/-- C10 amended: every kept gazette row has the constant fields
`status = "Reviewed"`, `aiStatus = "Processed"`, `sector = "Government"`;
the title falls back to the coerced id when the trimmed subject is empty,
so the title can be empty only when the trimmed subject is empty and the
coerced id is itself the empty string — in particular the title is
non-empty whenever the raw `id` field is missing, since the positional
fallback is non-empty; and no kept gazette row is matched by the
`Unreviewed` or `Manual` status filter chips. -/
theorem gazette_constant_fields (today : String) (item : RawGazette)
    (index : Nat) (row : DocumentRow)
    (hrow : mapGazetteToRow today item index = some row) :
    row.status = "Reviewed" ∧ row.aiStatus = "Processed" ∧
    row.sector = "Government" ∧
    (row.title = "" → row.id = "" ∧ strTrim (item.subjectField.getD "") = "") ∧
    (item.idField = none → row.title ≠ "") ∧
    (∀ docs f srt search,
      row ∉ filteredRows docs ⟨search, f, srt, "Unreviewed"⟩ ∧
      row ∉ filteredRows docs ⟨search, f, srt, "Manual"⟩) := by
  simp only [mapGazetteToRow] at hrow
  split at hrow
  · exact absurd hrow (by simp)
  case isFalse hcond =>
    cases hrow
    refine ⟨rfl, rfl, rfl, fun ht => ?_, fun hid ht => ?_, fun docs f srt search => ?_⟩
    · have ht' : (if (strTrim (item.subjectField.getD "") == "") = true
          then item.idField.getD ("gazette-" ++ toString index)
          else strTrim (item.subjectField.getD "")) = "" := ht
      by_cases hsub : (strTrim (item.subjectField.getD "") == "") = true
      · rw [if_pos hsub] at ht'
        exact ⟨ht', beq_iff_eq.mp hsub⟩
      · rw [if_neg hsub] at ht'
        exact absurd (beq_iff_eq.mpr ht') hsub
    · have ht' : (if (strTrim (item.subjectField.getD "") == "") = true
          then item.idField.getD ("gazette-" ++ toString index)
          else strTrim (item.subjectField.getD "")) = "" := ht
      by_cases hsub : (strTrim (item.subjectField.getD "") == "") = true
      · rw [if_pos hsub, hid, Option.getD_none] at ht'
        have hlen : ("gazette-" ++ toString index).length = 0 :=
          string_length_eq_zero.mpr ht'
        rw [String.length_append] at hlen
        have h8 : "gazette-".length = 8 := rfl
        omega
      · rw [if_neg hsub] at ht'
        exact absurd (beq_iff_eq.mpr ht') hsub
    · constructor <;> intro hmem <;>
        simp [filteredRows, List.mem_filter] at hmem

/-- Witness for C10 amended: a kept record with subject `Act` and no id
field produces a `Reviewed` row that the `Unreviewed` chip never
matches. -/
theorem gazette_constant_fields_witness :
    ({ id := "gazette-2", type := "Gazette", title := "Act",
       fileName := "gazette-2", date := "2026-01-01", sector := "Government",
       status := "Reviewed", aiStatus := "Processed", sourceUrl := none,
       rawContent := none } : DocumentRow).status = "Reviewed" :=
  (gazette_constant_fields "2026-01-01" (.record none (some "Act") none none) 2
    _ rfl).1

end Kira
